import Mathlib

/-!
Shallow embedding of the relevance-filtering and scoring subsystem of the
arxiv-daily pipeline (src/filter.py, sort call sites in src/main.py and
src/html_generator.py).

Python strings are modelled as lists of characters (`Str`); Python string
operations (`lower`, `strip`, `split`, slicing, substring test) are modelled
by executable Lean functions over `Str`, with ASCII case folding.  External
collaborators (the HTTP provider, the PDF text extractor, the JSON decoder)
are modelled as function parameters, so every theorem quantifies over their
behaviour.
-/

namespace ArxivDaily

/-- Model of a Python `str`: a list of characters. -/
abbrev Str := List Char

/-- Python whitespace predicate used by `str.strip` and `str.split()`. -/
def pyIsSpace (c : Char) : Bool :=
  c == ' ' || c == '\t' || c == '\n' || c == '\r' || c == '\x0b' || c == '\x0c'

/-- Model of Python `str.strip()`: drop leading and trailing whitespace. -/
def pyStrip (s : Str) : Str :=
  ((s.dropWhile pyIsSpace).reverse.dropWhile pyIsSpace).reverse

/-- Model of Python `str.lower()` (ASCII case folding). -/
def pyLower (s : Str) : Str := s.map Char.toLower

/-- Index of the first occurrence of `sep` as a contiguous sublist of `s`. -/
def findSub (sep : Str) : Str → Option Nat
  | [] => if sep.isPrefixOf [] then some 0 else none
  | c :: rest =>
    if sep.isPrefixOf (c :: rest) then some 0
    else (findSub sep rest).map (· + 1)

/-- Model of the Python membership test `needle in hay` on strings. -/
def pyIn (needle hay : Str) : Bool := (findSub needle hay).isSome

/-- Fuel-indexed worker for `pySplit`. -/
def pySplitF : Nat → Str → Str → List Str
  | 0, _, s => [s]
  | fuel + 1, sep, s =>
    match findSub sep s with
    | none => [s]
    | some i => s.take i :: pySplitF fuel sep (s.drop (i + sep.length))

/-- Model of Python `s.split(sep)` for a nonempty separator. -/
def pySplit (sep s : Str) : List Str := pySplitF (s.length + 1) sep s

/-- The backtick character, written by code point. -/
def backtick : Char := Char.ofNat 96

/-- Model of the fence-stripping step of `rate_papers` (filter.py lines
179-180): when the raw response contains the marker made of three backticks
followed by the letters json, keep the text between that marker and the next
three-backtick marker; otherwise leave the response unchanged. -/
def fenceStrip (s : Str) : Str :=
  if pyIn "```json".data s then
    ((pySplit "```".data ((pySplit "```json".data s).getD 1 [])).headD [])
  else s

/-- Model of `s.split()[0]`: first whitespace-delimited token, `none` when
the string holds no token (Python raises IndexError there, caught by the
caller's bare except). -/
def firstToken (s : Str) : Option Str :=
  match s.dropWhile pyIsSpace with
  | [] => none
  | c :: rest => some ((c :: rest).takeWhile (fun d => !pyIsSpace d))

/-- Tail of a Python decimal integer literal: digits with single
underscores allowed between digits. -/
def intDigitsTail : Str → Bool
  | [] => true
  | '_' :: rest =>
    match rest with
    | [] => false
    | d :: t => d.isDigit && intDigitsTail t
  | d :: t => d.isDigit && intDigitsTail t

/-- Body of a Python decimal integer literal: at least one digit, single
underscores allowed between digits. -/
def pyIsIntLit : Str → Bool
  | [] => false
  | c :: cs => c.isDigit && intDigitsTail cs

/-- Numeric value of a digit string, ignoring underscores. -/
def pyDigitsVal (s : Str) : Nat :=
  (s.filter (fun c => !(c == '_'))).foldl (fun a c => 10 * a + (c.toNat - 48)) 0

/-- Model of Python `int(token)` on a whitespace-free token: optional sign
followed by a decimal literal; `none` on anything else (ValueError). -/
def pyInt (s : Str) : Option Int :=
  match s with
  | [] => none
  | c :: cs =>
    if c = '+' then
      if pyIsIntLit cs then some (pyDigitsVal cs : Int) else none
    else if c = '-' then
      if pyIsIntLit cs then some (-(pyDigitsVal cs : Int)) else none
    else if pyIsIntLit (c :: cs) then some (pyDigitsVal (c :: cs) : Int)
    else none

/-- Value stored in a paper record: the field types the core manipulates. -/
inductive Val where
  | vstr : Str → Val
  | vint : Int → Val
deriving DecidableEq

/-- A paper record: a Python dict modelled as an insertion-ordered
association list from field names to values. -/
abbrev Paper := List (String × Val)

/-- Model of `paper.get(k)` / `paper.get(k, None)`. -/
def getVal (p : Paper) (k : String) : Option Val :=
  (p.find? (fun kv => kv.1 == k)).map (fun kv => kv.2)

/-- Model of `paper.get(k, default)` followed by use as text (Python
formats an int with `str`). -/
def getStrD (p : Paper) (k : String) (d : Str) : Str :=
  match getVal p k with
  | some (.vstr s) => s
  | some (.vint n) => (toString n).data
  | none => d

/-- Model of `paper[k] = v`: overwrite in place when the key exists,
append otherwise (Python dict insertion-order semantics). -/
def setKey (p : Paper) (k : String) (v : Val) : Paper :=
  if p.any (fun kv => kv.1 == k) then
    p.map (fun kv => if kv.1 == k then (k, v) else kv)
  else p ++ [(k, v)]

/-- Model of `paper.update(fields)`: merge every key of `fields` into the
record, overwriting same-named keys. -/
def dictUpdate (p : Paper) (fields : List (String × Val)) : Paper :=
  fields.foldl (fun acc kv => setKey acc kv.1 kv.2) p

/-- Truthiness of the `OPENROUTER_API_KEY` environment value: configured
iff present and nonempty (Python `if not OPENROUTER_API_KEY`). -/
def keyConfigured : Option String → Bool
  | none => false
  | some k => !(k == "")

/-- Model of `call_openrouter_api` (filter.py lines 16-39): returns `none`
when no key is configured or the network call fails (the bare except),
otherwise the provider text with surrounding whitespace stripped.  The
provider boundary `net` receives the token budget and the prompt. -/
def call_openrouter_api (key : Option String) (net : Nat → Str → Option Str)
    (prompt : Str) (max_tokens : Nat) : Option Str :=
  if keyConfigured key then (net max_tokens prompt).map pyStrip else none

/-- Entity terms of the keyword fallback (filter.py line 54). -/
def core_terms : List Str :=
  ["peptide".data, "protein".data, "biomolecule".data, "polypeptide".data,
   "supramolecular".data]

/-- Process terms of the keyword fallback (filter.py line 55). -/
def assembly_terms : List Str :=
  ["self-assembly".data, "co-assembly".data, "aggregation".data, "assembly".data]

/-- Context terms of the keyword fallback (filter.py line 56). -/
def optional_terms : List Str :=
  ["dataset".data, "simulation".data, "screening".data]

/-- The lowercased haystack `(title + " " + summary).lower()` of the keyword
fallback (filter.py line 60); absent fields default to the empty string. -/
def keywordText (p : Paper) : Str :=
  pyLower (getStrD p "title" [] ++ " ".data ++ getStrD p "summary" [])

/-- Keyword-fallback keep decision, translated from the if/elif chain of
filter.py lines 62-75. -/
def keywordKeep (p : Paper) : Bool :=
  let text := keywordText p
  let has_core := core_terms.any (fun t => pyIn t text)
  let has_assembly := assembly_terms.any (fun t => pyIn t text)
  let has_optional := optional_terms.any (fun t => pyIn t text)
  if has_core && has_assembly then true
  else if has_core && has_optional then true
  else false

/-- Default topic description (filter.py line 49). -/
def default_topic : Str :=
  "peptide self-assembly, aggregation or co-assembly, or machine learning for peptides/biomolecules".data

/-- Judgment prompt of the LLM-based filter branch (filter.py lines 84-92):
title, abstract and the first 10000 characters of full text, each defaulting
to the literal N/A marker when the field is absent. -/
def judgePrompt (topic : Str) (p : Paper) : Str :=
  let title := getStrD p "title" "N/A".data
  let summary := getStrD p "summary" "N/A".data
  let full_text := getStrD p "full_text" "N/A".data
  "On a scale from 0 (not relevant) to 10 (highly relevant), how relevant is this paper to research in \x27".data
    ++ topic
    ++ "\x27? Output only an integer.\n\nTitle: ".data ++ title
    ++ "\nAbstract: ".data ++ summary
    ++ "\n\nFull Text: ".data ++ full_text.take 10000

/-- Score parsing of the judged filter branch (filter.py lines 95-98):
`int(ai_response.strip().split()[0])`, any failure (missing response,
empty response, non-integer token) collapsing to 0 via the bare except. -/
def judgedScoreOf (resp : Option Str) : Int :=
  match resp with
  | none => 0
  | some r =>
    match firstToken (pyStrip r) with
    | none => 0
    | some tok => (pyInt tok).getD 0

/-- Model of `filter_papers_by_topic` (filter.py lines 42-107): keyword
fallback when no key is configured, otherwise the judged branch keeping
papers whose parsed score is at least 6. -/
def filter_papers_by_topic (key : Option String) (net : Nat → Str → Option Str)
    (papers : List Paper) (topic : Option Str) : List Paper :=
  if !keyConfigured key then
    papers.filter keywordKeep
  else
    papers.filter (fun p =>
      6 ≤ judgedScoreOf (call_openrouter_api key net
        (judgePrompt (topic.getD default_topic) p) 5))

/-- Rating prompt template up to the first placeholder (filter.py lines
110-119). -/
def rating_tpl_a : Str :=
  "\n# Role\nYou are an experienced researcher in machine learning for biomolecules and peptide self-assembly, skilled at quickly evaluating the potential value of research papers.\n\n# Task\nBased on the paper\x27s title and abstract, summarize it and score it across multiple dimensions (1-10 points, 1 being the lowest, 10 being the highest). \nFinally, provide an overall preliminary priority score.\n\n# Input\nPaper Title: ".data

/-- Rating prompt template between the first and second placeholders. -/
def rating_tpl_b : Str := "\nPaper Abstract: ".data

/-- Rating prompt template between the second and third placeholders. -/
def rating_tpl_c : Str := "\nPaper Full Text: ".data

/-- Rating prompt template after the third placeholder (filter.py lines
121-149). -/
def rating_tpl_d : Str :=
  "\n\n# My Research Interests\n- Peptide self-assembly, co-assembly, and aggregation\n- Machine learning for peptides and biomolecules\n- Datasets for peptide structure, aggregation or assembly\n- Computational screening or simulation of structure or assembly/aggregation of peptides\n\n# Output Requirements\nOutput must be valid JSON (RFC8259). Please output the evaluation and explanations in the following JSON format:\n\n\x7b\n  \"tldr\": \"<short summary in English>\",\n  \"explanation\": \"<detailed explanation in English>\",\n  \"interests_alignment\": \"<explanation of alignment with my research interests in English>\",\n  \"relevance_score\": <int>,\n  \"novelty_claim_score\": <int>,\n  \"clarity_score\": <int>,\n  \"potential_impact_score\": <int>,\n  \"overall_priority_score\": <int>\n\x7d\n\n# Scoring Guidelines\n- Relevance: Focus on whether it is directly related to the research interests I provided.\n- Novelty: Evaluate the degree of innovation claimed in the abstract regarding the method or viewpoint compared to known work.\n- Clarity: Evaluate whether the abstract itself is easy to understand and complete with essential elements.\n- Potential Impact: Evaluate the importance of the problem it claims to solve and the potential application value of the results.\n- Overall Priority: Provide an overall score combining all the above factors. A high score indicates suggested priority for reading.\n".data

/-- Full-text resolution of `rate_papers` (filter.py lines 163-169): when a
PDF locator is present, ask the extraction collaborator; on absence or
extraction failure the marker N/A stands in. -/
def ratingFullText (extract : Val → Option Str) (p : Paper) : Str :=
  match getVal p "pdf_url" with
  | none => "N/A".data
  | some link =>
    match extract link with
    | some t => t
    | none => "N/A".data

/-- Structured-evaluation prompt of `rate_papers` (filter.py line 171):
the template with title, abstract and the resolved full text substituted.
The full text is substituted whole, without truncation. -/
def ratingPrompt (extract : Val → Option Str) (p : Paper) : Str :=
  rating_tpl_a ++ getStrD p "title" "N/A".data
    ++ rating_tpl_b ++ getStrD p "summary" "N/A".data
    ++ rating_tpl_c ++ ratingFullText extract p
    ++ rating_tpl_d

/-- Result of the JSON decoding collaborator: a JSON object (a dict of
fields) or some other JSON value, whose merge into a dict raises. -/
inductive JVal where
  | jobj : List (String × Val) → JVal
  | jother : JVal
deriving DecidableEq

/-- Per-paper body of the `rate_papers` loop (filter.py lines 159-185):
build the prompt, call the provider with an 800-token budget, skip the
paper on a missing or empty response, strip a json fence, decode, and merge
the decoded object into the record; any decode failure leaves the record
unchanged. -/
def rateStep (key : Option String) (net : Nat → Str → Option Str)
    (extract : Val → Option Str) (loads : Str → Option JVal) (p : Paper) : Paper :=
  match call_openrouter_api key net (ratingPrompt extract p) 800 with
  | none => p
  | some r =>
    if r.isEmpty then p
    else
      match loads (fenceStrip r) with
      | some (.jobj fields) => dictUpdate p fields
      | some .jother => p
      | none => p

/-- Model of `rate_papers` (filter.py lines 152-187): passthrough when no
key is configured, otherwise the per-paper step applied to every record in
order. -/
def rate_papers (key : Option String) (net : Nat → Str → Option Str)
    (extract : Val → Option Str) (loads : Str → Option JVal)
    (papers : List Paper) : List Paper :=
  if !keyConfigured key then papers
  else papers.map (rateStep key net extract loads)

/-- Sort key of main.py line 44 and html_generator.py line 20:
`x.get('overall_priority_score', 0)`, missing (or non-integer) treated
as 0. -/
def priorityKey (p : Paper) : Int :=
  match getVal p "overall_priority_score" with
  | some (.vint n) => n
  | _ => 0

/-- Model of `papers.sort(key=..., reverse=True)` (main.py line 44,
html_generator.py line 20): Python guarantees a stable sort whose output is
uniquely determined by the comparator, so any stable sort embeds it; we use
insertion sort with the descending-key relation. -/
def sortByPriority (l : List Paper) : List Paper :=
  l.insertionSort (fun a b => priorityKey b ≤ priorityKey a)

/-! ### Specification-side definitions

These definitions follow the wording of the specification claims; the claim
theorems compare them with the source-translated definitions above. -/

/-- Keep rule as the specification words it: the haystack contains at least
one core term and at least one assembly term, or at least one core term and
at least one optional term. -/
def keywordKeepSpec (p : Paper) : Bool :=
  let text := keywordText p
  (core_terms.any (fun t => pyIn t text) && assembly_terms.any (fun t => pyIn t text))
    || (core_terms.any (fun t => pyIn t text) && optional_terms.any (fun t => pyIn t text))

/-- Judged score as the specification words it: first whitespace-delimited
token of the trimmed response parsed as an integer, any parse failure
(non-numeric token, empty response, provider unavailable) treated as 0. -/
def judgedScoreSpec (resp : Option Str) : Int :=
  match resp with
  | none => 0
  | some r =>
    match firstToken (pyStrip r) with
    | none => 0
    | some tok => (pyInt tok).getD 0

/-- Judged keep rule as the specification words it: keep iff the parsed
score is at least 6. -/
def judgedKeepSpec (resp : Option Str) : Bool := decide (6 ≤ judgedScoreSpec resp)

/-! ### Helper lemmas -/

theorem bool_chain (c a o : Bool) :
    (if c && a then true else if c && o then true else false) = (c && a || c && o) := by
  cases c <;> cases a <;> cases o <;> rfl

theorem keywordKeep_eq_spec (p : Paper) : keywordKeep p = keywordKeepSpec p :=
  bool_chain _ _ _

theorem getVal_map_set (p : Paper) (k : String) (v : Val)
    (h : p.any (fun kv => kv.1 == k) = true) :
    getVal (p.map (fun kv => if kv.1 == k then (k, v) else kv)) k = some v := by
  induction p with
  | nil => simp at h
  | cons kv rest ih =>
    by_cases hk : kv.1 == k
    · simp [getVal, List.find?, hk]
    · have h' : rest.any (fun kv => kv.1 == k) = true := by
        simp [List.any_cons, hk] at h
        simpa using h
      simpa [getVal, List.find?, hk] using ih h'

theorem getVal_setKey (p : Paper) (k : String) (v : Val) :
    getVal (setKey p k v) k = some v := by
  unfold setKey
  by_cases h : p.any (fun kv => kv.1 == k) = true
  · rw [if_pos h]
    exact getVal_map_set p k v h
  · rw [if_neg h]
    have hnone : p.find? (fun kv => kv.1 == k) = none := by
      rw [List.find?_eq_none]
      intro kv hkv hbeq
      exact h (List.any_eq_true.mpr ⟨kv, hkv, hbeq⟩)
    simp [getVal, List.find?_append, hnone, List.find?]

theorem isPrefixOf_append_self (l t : Str) : l.isPrefixOf (l ++ t) = true :=
  List.isPrefixOf_iff_prefix.mpr (List.prefix_append l t)

theorem findSub_self_append (sep t : Str) (h : sep ≠ []) :
    findSub sep (sep ++ t) = some 0 := by
  match sep, h with
  | c :: cs, _ =>
    rw [List.cons_append, findSub, ← List.cons_append, isPrefixOf_append_self]
    rfl

theorem cons_isPrefixOf_eq (a b : Char) (as bs : Str) :
    (a :: as).isPrefixOf (b :: bs) = (a == b && as.isPrefixOf bs) := rfl

theorem findSub_json_fence_none (inner : Str) (h : backtick ∉ inner) :
    findSub "```json".data (inner ++ "```".data) = none := by
  induction inner with
  | nil => decide
  | cons c cs ih =>
    have hc : c ≠ backtick := fun he => h (he ▸ List.mem_cons_self c cs)
    have hcs : backtick ∉ cs := fun hm => h (List.mem_cons_of_mem _ hm)
    have hbc : (backtick == c) = false := beq_eq_false_iff_ne.mpr (Ne.symm hc)
    have hpre : ("```json".data).isPrefixOf (c :: (cs ++ "```".data)) = false := by
      rw [show "```json".data = backtick :: "``json".data from by decide,
        cons_isPrefixOf_eq, hbc, Bool.false_and]
    rw [List.cons_append, findSub, hpre, if_neg (by decide), ih hcs, Option.map_none']

theorem findSub_fence_close (inner : Str) (h : backtick ∉ inner) :
    findSub "```".data (inner ++ "```".data) = some inner.length := by
  induction inner with
  | nil => decide
  | cons c cs ih =>
    have hc : c ≠ backtick := fun he => h (he ▸ List.mem_cons_self c cs)
    have hcs : backtick ∉ cs := fun hm => h (List.mem_cons_of_mem _ hm)
    have hbc : (backtick == c) = false := beq_eq_false_iff_ne.mpr (Ne.symm hc)
    have hpre : ("```".data).isPrefixOf (c :: (cs ++ "```".data)) = false := by
      rw [show "```".data = backtick :: "``".data from by decide,
        cons_isPrefixOf_eq, hbc, Bool.false_and]
    rw [List.cons_append, findSub, hpre, if_neg (by decide), ih hcs, Option.map_some']
    rfl

theorem pySplitF_succ (fuel : Nat) (sep s : Str) :
    pySplitF (fuel + 1) sep s =
      match findSub sep s with
      | none => [s]
      | some i => s.take i :: pySplitF fuel sep (s.drop (i + sep.length)) := rfl

theorem pySplitF_of_none (fuel : Nat) (sep s : Str) (h : findSub sep s = none) :
    pySplitF fuel sep s = [s] := by
  cases fuel with
  | zero => rfl
  | succ n => rw [pySplitF_succ, h]

theorem pySplit_json_fence (inner : Str) (h : backtick ∉ inner) :
    pySplit "```json".data ("```json".data ++ (inner ++ "```".data)) =
      [[], inner ++ "```".data] := by
  have hne : "```json".data ≠ ([] : Str) := by decide
  have hfind : findSub "```json".data ("```json".data ++ (inner ++ "```".data)) = some 0 :=
    findSub_self_append _ _ hne
  unfold pySplit
  rw [pySplitF_succ, hfind]
  simp only [List.take_zero, Nat.zero_add]
  rw [List.drop_left, pySplitF_of_none _ _ _ (findSub_json_fence_none inner h)]

theorem pySplit_fence_close (inner : Str) (h : backtick ∉ inner) :
    (pySplit "```".data (inner ++ "```".data)).headD [] = inner := by
  unfold pySplit
  rw [pySplitF_succ, findSub_fence_close inner h]
  simp only [List.headD_cons, List.take_left]

theorem fenceStrip_json_fence (inner : Str) (h : backtick ∉ inner) :
    fenceStrip ("```json".data ++ (inner ++ "```".data)) = inner := by
  have hne : "```json".data ≠ ([] : Str) := by decide
  have hfind : findSub "```json".data ("```json".data ++ (inner ++ "```".data)) = some 0 :=
    findSub_self_append _ _ hne
  unfold fenceStrip
  rw [if_pos (by rw [pyIn, hfind]; rfl), pySplit_json_fence inner h]
  exact pySplit_fence_close inner h

theorem filter_orderedInsert_key (k : Int) (a : Paper) (l : List Paper) :
    (List.orderedInsert (fun x y : Paper => priorityKey y ≤ priorityKey x) a l).filter
        (fun p => priorityKey p == k) =
      if priorityKey a = k then a :: l.filter (fun p => priorityKey p == k)
      else l.filter (fun p => priorityKey p == k) := by
  induction l with
  | nil =>
    by_cases hak : priorityKey a = k <;>
      simp [List.orderedInsert, List.filter_cons, List.filter_nil, hak]
  | cons b bs ih =>
    by_cases hab : priorityKey b ≤ priorityKey a
    · rw [List.orderedInsert, if_pos hab]
      by_cases hak : priorityKey a = k <;>
        simp [List.filter_cons, hak]
    · rw [List.orderedInsert, if_neg hab]
      rw [List.filter_cons, List.filter_cons, ih]
      by_cases hak : priorityKey a = k
      · have hbk : (priorityKey b == k) = false := by
          refine beq_eq_false_iff_ne.mpr fun hbk => hab ?_
          rw [hbk, hak]
        simp [hak, hbk]
      · by_cases hbk : priorityKey b = k <;> simp [hak, hbk]

theorem filter_sortByPriority_key (k : Int) (l : List Paper) :
    (sortByPriority l).filter (fun p => priorityKey p == k) =
      l.filter (fun p => priorityKey p == k) := by
  induction l with
  | nil => rfl
  | cons a as ih =>
    show (List.orderedInsert _ a
        (List.insertionSort (fun x y : Paper => priorityKey y ≤ priorityKey x) as)).filter
        (fun p => priorityKey p == k) = _
    rw [filter_orderedInsert_key]
    simp only [show (List.insertionSort (fun x y : Paper => priorityKey y ≤ priorityKey x)
        as).filter (fun p => priorityKey p == k) =
        as.filter (fun p => priorityKey p == k) from ih]
    by_cases hak : priorityKey a = k <;> simp [List.filter_cons, hak]

/-- C1: with no judging credential configured, `filter_papers_by_topic` keeps
a paper iff its lowercased title-space-summary haystack contains at least one
core term and at least one assembly term, or at least one core term and at
least one optional term, by case-insensitive substring containment. -/
theorem C1_keyword_fallback_rule (key : Option String) (net : Nat → Str → Option Str)
    (papers : List Paper) (topic : Option Str) (hkey : keyConfigured key = false) :
    filter_papers_by_topic key net papers topic = papers.filter keywordKeepSpec := by
  unfold filter_papers_by_topic
  rw [hkey]
  exact List.filter_congr (fun p _ => keywordKeep_eq_spec p)

/-- C1 witness: a concrete run of the keyword fallback keeping a
peptide-assembly paper and a peptide-dataset paper and dropping a
protein-only paper. -/
theorem C1_keyword_fallback_rule_witness :
    keyConfigured none = false ∧
    filter_papers_by_topic none (fun _ _ => none)
        [[("title", Val.vstr "Peptide Self-Assembly study".data)],
         [("title", Val.vstr "A protein landscape".data)],
         [("title", Val.vstr "A peptide dataset".data)]] none =
      [[("title", Val.vstr "Peptide Self-Assembly study".data)],
       [("title", Val.vstr "A peptide dataset".data)]] := by
  refine ⟨rfl, ?_⟩
  rw [C1_keyword_fallback_rule none (fun _ _ => none) _ none rfl]
  decide

/-- C2: with a judging credential configured, the judged filter parses the
first whitespace-delimited token of the trimmed response as an integer,
treats any parse failure (non-numeric token, empty response, provider
unavailable) as score 0, and keeps a paper iff the score is at least 6:
6 is kept, 5 is dropped, an unparseable response is dropped; the decision
is a total function, so no failure aborts the batch. -/
theorem C2_judged_threshold (key : Option String) (net : Nat → Str → Option Str)
    (papers : List Paper) (topic : Option Str) (hkey : keyConfigured key = true) :
    (filter_papers_by_topic key net papers topic =
      papers.filter (fun p =>
        judgedKeepSpec (call_openrouter_api key net
          (judgePrompt (topic.getD default_topic) p) 5))) ∧
    judgedKeepSpec (some "6".data) = true ∧
    judgedKeepSpec (some "5".data) = false ∧
    judgedKeepSpec (some "not a number".data) = false ∧
    judgedKeepSpec none = false := by
  refine ⟨?_, by decide, by decide, by decide, by decide⟩
  unfold filter_papers_by_topic
  rw [hkey]
  rfl

set_option maxRecDepth 100000 in
/-- C2 witness: a concrete judged run where the provider answers 6 for one
paper and 5 for the other, keeping exactly the first. -/
theorem C2_judged_threshold_witness :
    keyConfigured (some "k") = true ∧
    filter_papers_by_topic (some "k")
        (fun _ prompt => if pyIn "KEEP".data prompt then some "6".data else some "5".data)
        [[("title", Val.vstr "KEEP me".data)], [("title", Val.vstr "drop me".data)]]
        none =
      [[("title", Val.vstr "KEEP me".data)]] := by
  refine ⟨rfl, ?_⟩
  rw [(C2_judged_threshold (some "k")
    (fun _ prompt => if pyIn "KEEP".data prompt then some "6".data else some "5".data)
    [[("title", Val.vstr "KEEP me".data)], [("title", Val.vstr "drop me".data)]]
    none rfl).1]
  decide

/-- C3: under both strategies `filter_papers_by_topic` returns an
order-preserving subsequence of its input: kept records are the input
records themselves, unchanged and in their original relative order (the
pure model mutates nothing). -/
theorem C3_filter_is_subsequence (key : Option String) (net : Nat → Str → Option Str)
    (papers : List Paper) (topic : Option Str) :
    (filter_papers_by_topic key net papers topic).Sublist papers := by
  unfold filter_papers_by_topic
  cases hk : keyConfigured key
  · exact List.filter_sublist papers
  · exact List.filter_sublist papers

/-- Concrete papers for the C9 tie-breaking example: scores 5, 8, 8 and a
missing score. -/
def c9_p0 : Paper := [("title", Val.vstr "P0".data), ("overall_priority_score", Val.vint 5)]

/-- Second C9 example paper (score 8, earlier of the tie). -/
def c9_p1 : Paper := [("title", Val.vstr "P1".data), ("overall_priority_score", Val.vint 8)]

/-- Third C9 example paper (score 8, later of the tie). -/
def c9_p2 : Paper := [("title", Val.vstr "P2".data), ("overall_priority_score", Val.vint 8)]

/-- Fourth C9 example paper (no score: sorts as 0). -/
def c9_p3 : Paper := [("title", Val.vstr "P3".data)]

/-- C9: the downstream sort orders records by `overall_priority_score`
descending with a missing score treated as 0, is a permutation of its
input, and is stable: records with equal keys keep their original relative
order (their filtered subsequence is unchanged), and the concrete example
with scores 5, 8, 8, missing sorts to indices 1, 2, 0, 3. -/
theorem C9_stable_descending_sort (l : List Paper) :
    (sortByPriority l).Perm l ∧
    List.Sorted (fun a b : Paper => priorityKey b ≤ priorityKey a) (sortByPriority l) ∧
    (∀ k : Int, (sortByPriority l).filter (fun p => priorityKey p == k) =
      l.filter (fun p => priorityKey p == k)) ∧
    sortByPriority [c9_p0, c9_p1, c9_p2, c9_p3] = [c9_p1, c9_p2, c9_p0, c9_p3] := by
  refine ⟨List.perm_insertionSort _ l, ?_, fun k => filter_sortByPriority_key k l, by decide⟩
  haveI : IsTotal Paper (fun a b : Paper => priorityKey b ≤ priorityKey a) :=
    ⟨fun a b => le_total (priorityKey b) (priorityKey a)⟩
  haveI : IsTrans Paper (fun a b : Paper => priorityKey b ≤ priorityKey a) :=
    ⟨fun a b c hab hbc => le_trans hbc hab⟩
  exact List.sorted_insertionSort _ l

theorem rateStep_no_response (key : Option String) (net : Nat → Str → Option Str)
    (extract : Val → Option Str) (loads : Str → Option JVal) (p : Paper)
    (h : call_openrouter_api key net (ratingPrompt extract p) 800 = none) :
    rateStep key net extract loads p = p := by
  unfold rateStep
  rw [h]

theorem rateStep_some (key : Option String) (net : Nat → Str → Option Str)
    (extract : Val → Option Str) (loads : Str → Option JVal) (p : Paper) (r : Str)
    (hr : call_openrouter_api key net (ratingPrompt extract p) 800 = some r) :
    rateStep key net extract loads p =
      if r.isEmpty = true then p
      else
        match loads (fenceStrip r) with
        | some (.jobj fields) => dictUpdate p fields
        | some .jother => p
        | none => p := by
  unfold rateStep
  rw [hr]

theorem rateStep_empty_response (key : Option String) (net : Nat → Str → Option Str)
    (extract : Val → Option Str) (loads : Str → Option JVal) (p : Paper) (r : Str)
    (hr : call_openrouter_api key net (ratingPrompt extract p) 800 = some r)
    (he : r.isEmpty = true) :
    rateStep key net extract loads p = p := by
  rw [rateStep_some key net extract loads p r hr, if_pos he]

theorem rateStep_decode_fail (key : Option String) (net : Nat → Str → Option Str)
    (extract : Val → Option Str) (loads : Str → Option JVal) (p : Paper) (r : Str)
    (hr : call_openrouter_api key net (ratingPrompt extract p) 800 = some r)
    (hl : loads (fenceStrip r) = none) :
    rateStep key net extract loads p = p := by
  rw [rateStep_some key net extract loads p r hr]
  by_cases he : r.isEmpty = true
  · rw [if_pos he]
  · rw [if_neg he, hl]

theorem rateStep_decode_nonobject (key : Option String) (net : Nat → Str → Option Str)
    (extract : Val → Option Str) (loads : Str → Option JVal) (p : Paper) (r : Str)
    (hr : call_openrouter_api key net (ratingPrompt extract p) 800 = some r)
    (hl : loads (fenceStrip r) = some .jother) :
    rateStep key net extract loads p = p := by
  rw [rateStep_some key net extract loads p r hr]
  by_cases he : r.isEmpty = true
  · rw [if_pos he]
  · rw [if_neg he, hl]

theorem rateStep_merge (key : Option String) (net : Nat → Str → Option Str)
    (extract : Val → Option Str) (loads : Str → Option JVal) (p : Paper) (r : Str)
    (fields : List (String × Val))
    (hr : call_openrouter_api key net (ratingPrompt extract p) 800 = some r)
    (hne : r.isEmpty = false)
    (hl : loads (fenceStrip r) = some (.jobj fields)) :
    rateStep key net extract loads p = dictUpdate p fields := by
  rw [rateStep_some key net extract loads p r hr,
    if_neg (by rw [hne]; exact Bool.false_ne_true), hl]

/-- C4: if the provider gives no response (or an empty one) or the
structured response fails to decode (not decodable, or not an object), the
paper record is left completely unmodified — no field changed, none added —
and `rate_papers` is the total per-paper map of this step, so no exception
escapes it. -/
theorem C4_failure_leaves_record (key : Option String) (net : Nat → Str → Option Str)
    (extract : Val → Option Str) (loads : Str → Option JVal) (p : Paper) :
    (call_openrouter_api key net (ratingPrompt extract p) 800 = none →
      rateStep key net extract loads p = p) ∧
    (∀ r, call_openrouter_api key net (ratingPrompt extract p) 800 = some r →
      r.isEmpty = true → rateStep key net extract loads p = p) ∧
    (∀ r, call_openrouter_api key net (ratingPrompt extract p) 800 = some r →
      loads (fenceStrip r) = none → rateStep key net extract loads p = p) ∧
    (∀ r, call_openrouter_api key net (ratingPrompt extract p) 800 = some r →
      loads (fenceStrip r) = some .jother → rateStep key net extract loads p = p) ∧
    (∀ papers : List Paper, keyConfigured key = true →
      rate_papers key net extract loads papers = papers.map (rateStep key net extract loads)) := by
  refine ⟨rateStep_no_response key net extract loads p,
    fun r => rateStep_empty_response key net extract loads p r,
    fun r => rateStep_decode_fail key net extract loads p r,
    fun r => rateStep_decode_nonobject key net extract loads p r,
    fun papers hk => ?_⟩
  unfold rate_papers
  rw [hk]
  rfl

/-- C4 witness: with no provider response, a concrete record passes through
`rate_papers` byte-identical. -/
theorem C4_failure_leaves_record_witness :
    call_openrouter_api (some "k") (fun _ _ => none) (ratingPrompt (fun _ => none)
      [("title", Val.vstr "W4".data)]) 800 = none ∧
    rateStep (some "k") (fun _ _ => none) (fun _ => none) (fun _ => none)
      [("title", Val.vstr "W4".data)] = [("title", Val.vstr "W4".data)] :=
  ⟨rfl, (C4_failure_leaves_record (some "k") (fun _ _ => none) (fun _ => none)
    (fun _ => none) [("title", Val.vstr "W4".data)]).1 rfl⟩

/-- Provider response of the C5 counterexample: a JSON object with a single
key that is none of the six required keys. -/
def c5_resp : Str := "\x7b\"foo\": 1\x7d".data

/-- JSON decoding collaborator of the C5 counterexample, consistent with a
real JSON decoder on the strings it is asked about. -/
def c5_loads : Str → Option JVal :=
  fun s => if s = c5_resp then some (.jobj [("foo", Val.vint 1)]) else none

/-- C5 counterexample: a provider response that is a JSON object lacking all
six required keys (and all five score keys) is nevertheless merged into the
record, so the merge is not restricted to the strict required format. -/
theorem C5_counterexample :
    rate_papers (some "k") (fun _ _ => some c5_resp) (fun _ => none) c5_loads
        [[("title", Val.vstr "T".data)]] =
      [[("title", Val.vstr "T".data), ("foo", Val.vint 1)]] ∧
    pyIn "tldr".data c5_resp = false ∧
    pyIn "relevance_score".data c5_resp = false := by decide

/-- C5 amended: `rate_papers` merges a response whenever the fence-stripped
text decodes as a JSON object — no validation of required keys — and on
success merges all returned keys into the record, overwriting any
same-named existing key. -/
theorem C5_merge_on_any_object (key : Option String) (net : Nat → Str → Option Str)
    (extract : Val → Option Str) (loads : Str → Option JVal) (p : Paper) (r : Str)
    (fields : List (String × Val))
    (hr : call_openrouter_api key net (ratingPrompt extract p) 800 = some r)
    (hne : r.isEmpty = false)
    (hl : loads (fenceStrip r) = some (.jobj fields)) :
    rateStep key net extract loads p = dictUpdate p fields ∧
    ∀ (q : Paper) (k : String) (v : Val), getVal (dictUpdate q [(k, v)]) k = some v :=
  ⟨rateStep_merge key net extract loads p r fields hr hne hl,
   fun q k v => getVal_setKey q k v⟩

/-- Provider response of the C5 witness. -/
def c5w_resp : Str := "\x7b\"tldr\": \"ok\", \"overall_priority_score\": 9\x7d".data

/-- JSON decoding collaborator of the C5 witness. -/
def c5w_loads : Str → Option JVal :=
  fun s => if s = c5w_resp then
    some (.jobj [("tldr", Val.vstr "ok".data), ("overall_priority_score", Val.vint 9)])
  else none

/-- C5 witness: a concrete successful merge, overwriting nothing and adding
the returned keys. -/
theorem C5_merge_on_any_object_witness :
    rateStep (some "k") (fun _ _ => some c5w_resp) (fun _ => none) c5w_loads
        [("title", Val.vstr "T".data)] =
      dictUpdate [("title", Val.vstr "T".data)]
        [("tldr", Val.vstr "ok".data), ("overall_priority_score", Val.vint 9)] ∧
    getVal (dictUpdate [("x", Val.vint 1)] [("x", Val.vint 2)]) "x" = some (Val.vint 2) := by
  have h := C5_merge_on_any_object (some "k") (fun _ _ => some c5w_resp) (fun _ => none)
    c5w_loads [("title", Val.vstr "T".data)] c5w_resp
    [("tldr", Val.vstr "ok".data), ("overall_priority_score", Val.vint 9)]
    (by decide) (by decide) (by decide)
  exact ⟨h.1, h.2 [("x", Val.vint 1)] "x" (Val.vint 2)⟩

/-- C6: per-paper error containment in `rate_papers`: when the provider
fails only for the second of three papers, the first and third are still
fully merged with their structured evaluations and the second passes
through untouched — one failure never aborts the batch. -/
theorem C6_per_paper_isolation (key : Option String) (net : Nat → Str → Option Str)
    (extract : Val → Option Str) (loads : Str → Option JVal)
    (p1 p2 p3 : Paper) (r1 r3 : Str) (f1 f3 : List (String × Val))
    (hkey : keyConfigured key = true)
    (h1 : call_openrouter_api key net (ratingPrompt extract p1) 800 = some r1)
    (h1e : r1.isEmpty = false)
    (h1l : loads (fenceStrip r1) = some (.jobj f1))
    (h2 : net 800 (ratingPrompt extract p2) = none)
    (h3 : call_openrouter_api key net (ratingPrompt extract p3) 800 = some r3)
    (h3e : r3.isEmpty = false)
    (h3l : loads (fenceStrip r3) = some (.jobj f3)) :
    rate_papers key net extract loads [p1, p2, p3] =
      [dictUpdate p1 f1, p2, dictUpdate p3 f3] := by
  have h2c : call_openrouter_api key net (ratingPrompt extract p2) 800 = none := by
    unfold call_openrouter_api
    rw [hkey, h2]
    rfl
  unfold rate_papers
  rw [hkey]
  show [rateStep key net extract loads p1, rateStep key net extract loads p2,
    rateStep key net extract loads p3] = _
  rw [rateStep_merge key net extract loads p1 r1 f1 h1 h1e h1l,
    rateStep_no_response key net extract loads p2 h2c,
    rateStep_merge key net extract loads p3 r3 f3 h3 h3e h3l]

/-- Provider response of the C6 witness. -/
def c6_resp : Str := "\x7b\"overall_priority_score\": 7\x7d".data

/-- JSON decoding collaborator of the C6 witness. -/
def c6_loads : Str → Option JVal :=
  fun s => if s = c6_resp then some (.jobj [("overall_priority_score", Val.vint 7)]) else none

/-- Provider of the C6 witness: fails exactly on prompts whose embedded
title starts with the letter F (the title sits right after the fixed
template prefix). -/
def c6_net : Nat → Str → Option Str :=
  fun _ prompt =>
    if (prompt.drop rating_tpl_a.length).headD ' ' = 'F' then none else some c6_resp

/-- First C6 witness paper. -/
def c6_pa : Paper := [("title", Val.vstr "alpha".data)]

/-- Second C6 witness paper, whose prompt makes the provider fail. -/
def c6_pb : Paper := [("title", Val.vstr "FAIL beta".data)]

/-- Third C6 witness paper. -/
def c6_pc : Paper := [("title", Val.vstr "gamma".data)]

set_option maxRecDepth 100000 in
/-- C6 witness: a concrete three-paper batch where only the middle call
fails; the outer two are merged. -/
theorem C6_per_paper_isolation_witness :
    rate_papers (some "k") c6_net (fun _ => none) c6_loads [c6_pa, c6_pb, c6_pc] =
      [dictUpdate c6_pa [("overall_priority_score", Val.vint 7)], c6_pb,
       dictUpdate c6_pc [("overall_priority_score", Val.vint 7)]] :=
  C6_per_paper_isolation (some "k") c6_net (fun _ => none) c6_loads
    c6_pa c6_pb c6_pc c6_resp c6_resp
    [("overall_priority_score", Val.vint 7)] [("overall_priority_score", Val.vint 7)]
    rfl (by decide) (by decide) (by decide) (by decide) (by decide) (by decide) (by decide)

theorem ratingFullText_of_ext_none (extract : Val → Option Str) (p : Paper) (link : Val)
    (hlink : getVal p "pdf_url" = some link) (hext : extract link = none) :
    ratingFullText extract p = "N/A".data := by
  unfold ratingFullText
  rw [hlink]
  show (match extract link with | some t => t | none => "N/A".data) = _
  rw [hext]

theorem ratingFullText_of_ext_some (extract : Val → Option Str) (p : Paper) (link : Val)
    (t : Str) (hlink : getVal p "pdf_url" = some link) (hext : extract link = some t) :
    ratingFullText extract p = t := by
  unfold ratingFullText
  rw [hlink]
  show (match extract link with | some t => t | none => "N/A".data) = _
  rw [hext]

/-- Extraction collaborator of the C7 counterexample: returns a full text
of 10001 characters. -/
def c7_extract : Val → Option Str := fun _ => some (List.replicate 10001 'a')

/-- Paper of the C7 counterexample. -/
def c7_paper : Paper :=
  [("title", Val.vstr "T".data), ("summary", Val.vstr "S".data),
   ("pdf_url", Val.vstr "u".data)]

/-- C7 counterexample: the structured-evaluation prompt of the scorer embeds
the whole 10001-character extracted full text, so it is not the prompt that
a 10000-character truncation would produce. -/
theorem C7_counterexample :
    ratingPrompt c7_extract c7_paper ≠
      rating_tpl_a ++ getStrD c7_paper "title" "N/A".data
        ++ rating_tpl_b ++ getStrD c7_paper "summary" "N/A".data
        ++ rating_tpl_c ++ (ratingFullText c7_extract c7_paper).take 10000
        ++ rating_tpl_d := by
  have hft : ratingFullText c7_extract c7_paper = List.replicate 10001 'a' := rfl
  intro h
  have hl := congrArg List.length h
  unfold ratingPrompt at hl
  rw [hft] at hl
  simp only [List.length_append, List.length_take, List.length_replicate] at hl
  omega

/-- C7 amended: the judged relevance prompt of the filter embeds at most the
first 10000 characters of the full text, with the literal N/A marker when
the field is absent; the structured-evaluation prompt of the scorer
substitutes N/A when the locator is absent or extraction fails, but embeds a
successfully extracted full text whole, without truncation. -/
theorem C7_prompt_full_text (topic : Str) (p : Paper) (extract : Val → Option Str) :
    (∃ pre, judgePrompt topic p = pre ++ (getStrD p "full_text" "N/A".data).take 10000) ∧
    ((getStrD p "full_text" "N/A".data).take 10000).length ≤ 10000 ∧
    (getVal p "pdf_url" = none →
      ratingPrompt extract p =
        (rating_tpl_a ++ getStrD p "title" "N/A".data ++ rating_tpl_b
          ++ getStrD p "summary" "N/A".data ++ rating_tpl_c) ++ "N/A".data
          ++ rating_tpl_d) ∧
    (∀ link, getVal p "pdf_url" = some link → extract link = none →
      ratingPrompt extract p =
        (rating_tpl_a ++ getStrD p "title" "N/A".data ++ rating_tpl_b
          ++ getStrD p "summary" "N/A".data ++ rating_tpl_c) ++ "N/A".data
          ++ rating_tpl_d) ∧
    (∀ link t, getVal p "pdf_url" = some link → extract link = some t →
      ratingPrompt extract p =
        (rating_tpl_a ++ getStrD p "title" "N/A".data ++ rating_tpl_b
          ++ getStrD p "summary" "N/A".data ++ rating_tpl_c) ++ t
          ++ rating_tpl_d) := by
  refine ⟨⟨_, rfl⟩, ?_, ?_, ?_, ?_⟩
  · rw [List.length_take]
    exact min_le_left _ _
  · intro h
    unfold ratingPrompt ratingFullText
    rw [h]
  · intro link hlink hext
    unfold ratingPrompt
    rw [ratingFullText_of_ext_none extract p link hlink hext]
  · intro link t hlink hext
    unfold ratingPrompt
    rw [ratingFullText_of_ext_some extract p link t hlink hext]

/-- Extraction collaborator of the C7 witness. -/
def c7w_extract : Val → Option Str := fun _ => some "FULLTEXT".data

/-- Paper of the C7 witness. -/
def c7w_paper : Paper :=
  [("title", Val.vstr "T7".data), ("summary", Val.vstr "S7".data),
   ("pdf_url", Val.vstr "u7".data)]

/-- C7 witness: concrete instances of the amended prompt shapes. -/
theorem C7_prompt_full_text_witness :
    (∃ pre, judgePrompt [] c7w_paper =
      pre ++ (getStrD c7w_paper "full_text" "N/A".data).take 10000) ∧
    ratingPrompt c7w_extract c7w_paper =
      (rating_tpl_a ++ getStrD c7w_paper "title" "N/A".data ++ rating_tpl_b
        ++ getStrD c7w_paper "summary" "N/A".data ++ rating_tpl_c) ++ "FULLTEXT".data
        ++ rating_tpl_d :=
  ⟨(C7_prompt_full_text [] c7w_paper c7w_extract).1,
   (C7_prompt_full_text [] c7w_paper c7w_extract).2.2.2.2 (Val.vstr "u7".data)
     "FULLTEXT".data rfl rfl⟩

/-- C8 counterexample: a response wrapped in a plain three-backtick fence
with no json tag is not unwrapped — the fence-stripping step leaves it
unchanged instead of extracting the payload between the markers. -/
theorem C8_counterexample :
    fenceStrip "```\x7b\"a\": 1\x7d```".data = "```\x7b\"a\": 1\x7d```".data ∧
    fenceStrip "```\x7b\"a\": 1\x7d```".data ≠ "\x7b\"a\": 1\x7d".data := by decide

/-- C8 amended: a response wrapped in a json-tagged fence (three backticks
followed by the letters json before the payload, three backticks after it)
is unwrapped before decoding: the payload between the markers is what gets
decoded, and a payload decoding as a JSON object is merged into the
record.  Plain three-backtick fences without the json tag are not
unwrapped. -/
theorem C8_json_fence_unwrapped (key : Option String) (net : Nat → Str → Option Str)
    (extract : Val → Option Str) (loads : Str → Option JVal) (p : Paper)
    (inner : Str) (fields : List (String × Val))
    (hresp : call_openrouter_api key net (ratingPrompt extract p) 800 =
      some ("```json".data ++ (inner ++ "```".data)))
    (hb : backtick ∉ inner)
    (hl : loads inner = some (.jobj fields)) :
    rateStep key net extract loads p = dictUpdate p fields := by
  refine rateStep_merge key net extract loads p _ fields hresp ?_ ?_
  · rw [show "```json".data = backtick :: "``json".data from by decide, List.cons_append]
    rfl
  · rw [fenceStrip_json_fence inner hb]
    exact hl

/-- Payload of the C8 witness. -/
def c8_inner : Str := "\x7b\"clarity_score\": 8\x7d".data

/-- Fenced response of the C8 witness. -/
def c8_fenced : Str := "```json".data ++ (c8_inner ++ "```".data)

/-- JSON decoding collaborator of the C8 witness. -/
def c8_loads : Str → Option JVal :=
  fun s => if s = c8_inner then some (.jobj [("clarity_score", Val.vint 8)]) else none

/-- C8 witness: a concrete json-fenced response whose payload is merged. -/
theorem C8_json_fence_unwrapped_witness :
    rateStep (some "k") (fun _ _ => some c8_fenced) (fun _ => none) c8_loads
        [("title", Val.vstr "T8".data)] =
      dictUpdate [("title", Val.vstr "T8".data)] [("clarity_score", Val.vint 8)] :=
  C8_json_fence_unwrapped (some "k") (fun _ _ => some c8_fenced) (fun _ => none)
    c8_loads [("title", Val.vstr "T8".data)] c8_inner [("clarity_score", Val.vint 8)]
    (by decide) (by decide) (by decide)

/-- C10: `rate_papers` returns a list of the same length and order in every
configuration: with no credential it is the input list itself, with a
credential it is the per-record scoring step mapped over the input, and
position by position the output record is the (possibly augmented) input
record at the same index. -/
theorem C10_rate_papers_preserves_shape (key : Option String)
    (net : Nat → Str → Option Str) (extract : Val → Option Str)
    (loads : Str → Option JVal) (papers : List Paper) :
    (rate_papers key net extract loads papers).length = papers.length ∧
    (keyConfigured key = false → rate_papers key net extract loads papers = papers) ∧
    (keyConfigured key = true →
      rate_papers key net extract loads papers =
        papers.map (rateStep key net extract loads)) ∧
    (∀ i : Nat, (rate_papers key net extract loads papers)[i]? =
      papers[i]?.map (fun p =>
        if keyConfigured key then rateStep key net extract loads p else p)) := by
  unfold rate_papers
  cases hk : keyConfigured key
  · refine ⟨rfl, fun _ => rfl, fun h => absurd h (by decide), fun i => ?_⟩
    cases hp : papers[i]? <;> simp [hp]
  · refine ⟨List.length_map papers _, fun h => absurd h (by decide), fun _ => rfl,
      fun i => ?_⟩
    simp [List.getElem?_map]

/-- C10 witness: a concrete record passes through unchanged with no
credential, and is mapped through the scoring step with one. -/
theorem C10_rate_papers_preserves_shape_witness :
    rate_papers none (fun _ _ => none) (fun _ => none) (fun _ => none)
        [[("title", Val.vstr "W10".data)]] = [[("title", Val.vstr "W10".data)]] ∧
    rate_papers (some "k") (fun _ _ => none) (fun _ => none) (fun _ => none)
        [[("title", Val.vstr "W10".data)]] =
      [[("title", Val.vstr "W10".data)]].map
        (rateStep (some "k") (fun _ _ => none) (fun _ => none) (fun _ => none)) :=
  ⟨(C10_rate_papers_preserves_shape none (fun _ _ => none) (fun _ => none)
      (fun _ => none) [[("title", Val.vstr "W10".data)]]).2.1 rfl,
   (C10_rate_papers_preserves_shape (some "k") (fun _ _ => none) (fun _ => none)
      (fun _ => none) [[("title", Val.vstr "W10".data)]]).2.2.1 rfl⟩

end ArxivDaily
